import Mathlib

/-!
# Verification of the alternating-minimization driver `learn_d_z_multi`

Shallow embedding of `alphacsc/learn_d_z_multi.py` (convolutional
dictionary learning): the objective evaluator
`compute_X_and_objective_multi`, the raw objective `objective`, and the
outer alternating-minimization driver `learn_d_z_multi`.

Modelling conventions:
* numpy float64 arrays are modelled as total functions `Fin _ → ℚ`
  (exact rational arithmetic in place of floating point);
* the external collaborators that live outside the covered source
  (`prox_uv`, `_get_D`, `construct_X_multi`, `update_z_multi`,
  `_support_least_square`) are modelled from the spec, see the
  doc comment of each such definition;
* wall-clock durations of the two stages are oracle parameters
  (`tz`, `td : ℕ → ℚ`), since only the trace structure matters here;
* the driver is modelled with `callback = None`, `verbose = 0` and an
  explicitly supplied `uv_init` (the random-initialization branch and the
  printing branches do not affect any property proved below);
* Python in-place mutation of arrays is modelled explicitly for the
  objective evaluator via a caller-cell/local-reference model (`PyVar`),
  so that the copy-before-project behaviour is a provable statement and
  not a triviality of the pure embedding.
-/

/-- A three-dimensional numpy array of floats, e.g. the data tensor `X`
(trials × channels × times) or the activations `Z_hat`
(atoms × trials × valid length). -/
abbrev Tensor3 (a b c : ℕ) : Type := Fin a → Fin b → Fin c → ℚ

/-- A two-dimensional numpy array, e.g. the atom bank `uv_hat`
(atoms × (channels + atom support)). -/
abbrev Mat (a b : ℕ) : Type := Fin a → Fin b → ℚ

/-- Modelled from the spec: the real square root used by the L2 norms of
the feasible-set projector.  Exact on rationals whose numerator and
denominator are perfect squares; every concrete input used in this
development has a rational L2 norm, where this function agrees with the
real square root.  No theorem below depends on its values elsewhere. -/
def ratSqrt (q : ℚ) : ℚ := (Nat.sqrt q.num.toNat : ℚ) / (Nat.sqrt q.den : ℚ)

/-- The closed enumeration of constraint modes accepted by the
feasible-set projector (spec section 4.1 and the `uv_constraint`
docstring of the source). -/
inductive UvConstraint : Type
  | joint : UvConstraint
  | separate : UvConstraint
  | box : UvConstraint
deriving DecidableEq

/-- Modelled from the spec: the feasible-set projector rejects any
constraint-mode string outside the closed set {joint, separate, box}
(spec sections 4.1 and 7: "unknown constraint mode" is a configuration
error raised by the projector). -/
def parse_uv_constraint : String → Except String UvConstraint
  | "joint" => .ok UvConstraint.joint
  | "separate" => .ok UvConstraint.separate
  | "box" => .ok UvConstraint.box
  | _ => .error "unknown uv_constraint"

/-- Squared L2 norm of a row of the atom bank over an index range given
by an embedding `e` (used for the full row, the spatial part, and the
temporal part). -/
def rowSq {d r : ℕ} (row : Fin d → ℚ) (e : Fin r → Fin d) : ℚ :=
  ∑ j : Fin r, (row (e j)) ^ 2

/-- Modelled from the spec (section 4.1): the feasible-set projector.
Given an atom bank and a constraint mode, scale each atom so that it
satisfies the mode's norm bound (L2 of the whole row for `joint`, L2 of
the spatial and temporal halves independently for `separate`, L∞ of the
whole row for `box`), and report the per-atom factor `max 1 ‖·‖` by
which the activations must be multiplied so that the joint
(atom, activation) decomposition is preserved.  Already-feasible atoms
are left unchanged with factor 1. -/
def prox_uv_total {k c L : ℕ} (m : UvConstraint) (uv : Mat k (c + L)) :
    Mat k (c + L) × (Fin k → ℚ) :=
  match m with
  | UvConstraint.joint =>
      let nrm : Fin k → ℚ := fun a => max 1 (ratSqrt (rowSq (uv a) id))
      (fun a j => uv a j / nrm a, nrm)
  | UvConstraint.separate =>
      let nu : Fin k → ℚ :=
        fun a => max 1 (ratSqrt (rowSq (uv a) (Fin.castAdd L)))
      let nv : Fin k → ℚ :=
        fun a => max 1 (ratSqrt (rowSq (uv a) (Fin.natAdd c)))
      (fun a j => if (j : ℕ) < c then uv a j / nu a else uv a j / nv a,
       fun a => nu a * nv a)
  | UvConstraint.box =>
      let nrm : Fin k → ℚ :=
        fun a => max 1 ((List.ofFn (fun j : Fin (c + L) => |uv a j|)).foldr max 0)
      (fun a j => uv a j / nrm a, nrm)

/-- The projector as callers see it: parses the constraint-mode string
(raising on an unknown mode) and applies the projection, returning the
projected bank together with the per-atom norm factors. -/
def prox_uv {k c L : ℕ} (uv : Mat k (c + L)) (uv_constraint : String) :
    Except String (Mat k (c + L) × (Fin k → ℚ)) := do
  let m ← parse_uv_constraint uv_constraint
  pure (prox_uv_total m uv)

/-- Modelled from the spec (glossary "Atom": a rank-1 spatio-temporal
pattern): `_get_D` expands the rank-1 atom bank into a full dictionary,
`D[a, ch, τ] = u[a, ch] * v[a, τ]` where `u` is the first `c` columns of
`uv` and `v` the remaining `L` columns. -/
def _get_D {k c L : ℕ} (uv : Mat k (c + L)) : Fin k → Fin c → Fin L → ℚ :=
  fun a ch τ => uv a (Fin.castAdd L ch) * uv a (Fin.natAdd c τ)

/-- Modelled from the spec (sections 1 and 2): `construct_X_multi`
reconstructs the signal as the sum over atoms of the valid convolution
of each activation row with the corresponding dictionary element:
`X_hat[i, ch, t] = Σ_a Σ_{s+τ=t} Z[a, i, s] * D[a, ch, τ]`. -/
def construct_X_multi {k n v c L t : ℕ} (Z : Tensor3 k n v)
    (d : Fin k → Fin c → Fin L → ℚ) : Tensor3 n c t :=
  fun i ch tt =>
    ∑ a : Fin k, ∑ s : Fin v, ∑ τ : Fin L,
      if (s : ℕ) + (τ : ℕ) = (tt : ℕ) then Z a i s * d a ch τ else 0

/-- The objective `objective(X, X_hat, Z_hat, reg)`: half the squared residual plus
`reg` times the sum of the activations. -/
def objective {n c t k nn v : ℕ} (X X_hat : Tensor3 n c t)
    (Z_hat : Tensor3 k nn v) (reg : ℚ) : ℚ :=
  (1 / 2) * (∑ i : Fin n, ∑ ch : Fin c, ∑ tt : Fin t,
      (X i ch tt - X_hat i ch tt) * (X i ch tt - X_hat i ch tt)) +
    reg * (∑ a : Fin k, ∑ i : Fin nn, ∑ s : Fin v, Z_hat a i s)

/-- A Python local variable holding a numpy array: `callerVal` is the
content of the caller-owned array, `isCopy` records whether the local
name still references that array or a fresh copy, and `localVal` is the
content of whatever array the local currently references. -/
structure PyVar (α : Type) : Type where
  callerVal : α
  isCopy : Bool
  localVal : α

/-- A freshly received argument: the local name references the caller's
array. -/
def PyVar.start {α : Type} (a : α) : PyVar α :=
  { callerVal := a, isCopy := false, localVal := a }

/-- Python assignment `x = x.copy()`: rebind the local name to a fresh array with the same
content; the caller's array is no longer referenced. -/
def PyVar.copy {α : Type} (va : PyVar α) : PyVar α :=
  { callerVal := va.callerVal, isCopy := true, localVal := va.localVal }

/-- An in-place update (`*=`, or a mutating callee) writes through the
local reference: it hits the caller's array exactly when the local still
references it. -/
def PyVar.write {α : Type} (va : PyVar α) (f : α → α) : PyVar α :=
  if va.isCopy then
    { callerVal := va.callerVal, isCopy := true, localVal := f va.localVal }
  else
    { callerVal := f va.localVal, isCopy := false, localVal := f va.localVal }

/-- The evaluator `compute_X_and_objective_multi(X, Z_hat, uv_hat, reg,
feasible_evaluation, uv_constraint)`, with the caller's two arrays
threaded through the aliasing model: the result is the returned
objective (or the projector's error) together with the content of the
caller's `Z_hat` and `uv_hat` arrays after the call.  When
`feasible_evaluation` holds the body first rebinds both locals to
copies, then lets `prox_uv` project the (copied) atom bank in place and
rescales the (copied) activations in place by the per-atom norm factor,
then reconstructs and evaluates `objective` with the full `reg`. -/
def compute_X_and_objective_multi_call {n c t k L v : ℕ} (X : Tensor3 n c t)
    (Z_hat : Tensor3 k n v) (uv_hat : Mat k (c + L)) (reg : ℚ)
    (feasible_evaluation : Bool) (uv_constraint : String) :
    Except String ℚ × Tensor3 k n v × Mat k (c + L) :=
  let zv := PyVar.start Z_hat
  let uvv := PyVar.start uv_hat
  if feasible_evaluation then
    let zv := zv.copy
    let uvv := uvv.copy
    match parse_uv_constraint uv_constraint with
    | .error e => (.error e, zv.callerVal, uvv.callerVal)
    | .ok m =>
        let pr := prox_uv_total m uvv.localVal
        let uvv := uvv.write (fun _ => pr.1)
        let norm_uv := pr.2
        let zv := zv.write (fun Zl => fun a i s => Zl a i s * norm_uv a)
        let d_hat := _get_D uvv.localVal
        let X_hat : Tensor3 n c t := construct_X_multi zv.localVal d_hat
        (.ok (objective X X_hat zv.localVal reg), zv.callerVal, uvv.callerVal)
  else
    let d_hat := _get_D uvv.localVal
    let X_hat : Tensor3 n c t := construct_X_multi zv.localVal d_hat
    (.ok (objective X X_hat zv.localVal reg), zv.callerVal, uvv.callerVal)

/-- The value-level objective evaluator (what the call returns to the
caller). -/
def compute_X_and_objective_multi {n c t k L v : ℕ} (X : Tensor3 n c t)
    (Z_hat : Tensor3 k n v) (uv_hat : Mat k (c + L)) (reg : ℚ)
    (feasible_evaluation : Bool) (uv_constraint : String) :
    Except String ℚ :=
  (compute_X_and_objective_multi_call X Z_hat uv_hat reg
    feasible_evaluation uv_constraint).1

/-- The feasibility-mode objective for a parsed constraint mode: project
a copy of the atoms, rescale the activations by the per-atom factor,
reconstruct, and evaluate `objective`. -/
def compute_obj_total {n c t k L v : ℕ} (m : UvConstraint) (X : Tensor3 n c t)
    (Z_hat : Tensor3 k n v) (uv_hat : Mat k (c + L)) (reg : ℚ) : ℚ :=
  let pr := prox_uv_total m uv_hat
  let Z2 : Tensor3 k n v := fun a i s => Z_hat a i s * pr.2 a
  objective X (construct_X_multi Z2 (_get_D pr.1)) Z2 reg

/-- The all-zero activation tensor allocated by the driver. -/
def zeroZ (k n vl : ℕ) : Tensor3 k n vl := fun _ _ _ => 0

/-- The closed enumeration of sparse-code solver names accepted by the
sparse-code stage (`solver_z` docstring of the source). -/
def valid_solvers_z : List String := ["l_bfgs", "ista", "fista"]

/-- The abstract behaviour of the external sparse-code stage: given the
data, the current atom bank, the active regularization weight and the
warm-start activations, produce updated activations. -/
abbrev ZOracle (n c t k L v : ℕ) : Type :=
  Tensor3 n c t → Mat k (c + L) → ℚ → Tensor3 k n v → Tensor3 k n v

/-- The abstract behaviour of the external dictionary stage `func_d`:
given the data, the current activations and the current atom bank as a
warm start, produce an updated atom bank. -/
abbrev DOracle (n c t k L v : ℕ) : Type :=
  Tensor3 n c t → Tensor3 k n v → Mat k (c + L) → Mat k (c + L)

/-- The abstract behaviour of the external least-squares refinement
`_support_least_square`: given the data, the final atom bank and the
final activations, re-solve the amplitudes on the fixed support. -/
abbrev LsqOracle (n c t k L v : ℕ) : Type :=
  Tensor3 n c t → Mat k (c + L) → Tensor3 k n v → Tensor3 k n v

/-- Modelled from the spec: the external sparse-code stage
`update_z_multi` validates its solver name against the closed
enumeration of the source's `solver_z` docstring (raising on an unknown
name, as any stage failure propagates) and otherwise returns the
abstract solver's output. -/
def update_z_multi {n c t k L v : ℕ} (zsolve : ZOracle n c t k L v)
    (X : Tensor3 n c t) (uv_hat : Mat k (c + L)) (reg : ℚ)
    (z0 : Tensor3 k n v) (solver : String) :
    Except String (Tensor3 k n v) :=
  if solver ∈ valid_solvers_z then .ok (zsolve X uv_hat reg z0)
  else .error "unknown solver"

/-- The mutable state of the outer coordinate-descent loop, together
with ghost instrumentation: `nZ`/`nD` count the sparse-code and
dictionary stage invocations, `regLog` records the regularization
weight passed to each sparse-code invocation, `states` records the
(activations, atoms) pair at which each `pobj` entry was evaluated, and
`warned` records whether the degenerate all-zero warning was emitted. -/
structure LoopState (n c t k L : ℕ) : Type where
  regCur : ℚ
  Z : Tensor3 k n (t + 1 - L)
  uv : Mat k (c + L)
  pobj : List ℚ
  times : List ℚ
  nZ : ℕ
  nD : ℕ
  warned : Bool
  regLog : List ℚ
  states : List (Tensor3 k n (t + 1 - L) × Mat k (c + L))

/-- Outcome of one pass through the loop body: continue with the new
state, or leave the loop (a `break`) with the new state. -/
inductive StepOut (n c t k L : ℕ) : Type
  | cont : LoopState n c t k L → StepOut n c t k L
  | stop : LoopState n c t k L → StepOut n c t k L

/-- The state carried by a step outcome. -/
def StepOut.state {n c t k L : ℕ} : StepOut n c t k L → LoopState n c t k L
  | StepOut.cont s => s
  | StepOut.stop s => s

/-- One pass through the body of the outer loop of `learn_d_z_multi`
(source lines 152-208) at iteration index `ii`:
reset the warm-up weight at `ii = 1`; run the sparse-code stage with the
active weight and record its elapsed time; on an all-zero activation
tensor warn and break; evaluate and append the objective (full `reg`,
evaluator defaults); run the dictionary stage and record its elapsed
time; evaluate and append the objective again; break when the last
recorded decrease `pobj[-2] - pobj[-1]` is below `eps`; break when a
stopping objective is configured and `pobj[-1]` is strictly below it. -/
def iterBody {n c t k L : ℕ} (zsolve : ZOracle n c t k L (t + 1 - L))
    (func_d : DOracle n c t k L (t + 1 - L)) (X : Tensor3 n c t)
    (reg : ℚ) (solver_z : String) (uv_constraint : String) (eps : ℚ)
    (stopping_pobj : Option ℚ) (tz td : ℕ → ℚ) (ii : ℕ)
    (s : LoopState n c t k L) :
    Except String (StepOut n c t k L) := do
  let regCur := if ii = 1 then reg else s.regCur
  let Z1 ← update_z_multi zsolve X s.uv regCur s.Z solver_z
  let s1 : LoopState n c t k L :=
    { s with regCur := regCur, Z := Z1, nZ := s.nZ + 1,
             regLog := s.regLog ++ [regCur], times := s.times ++ [tz ii] }
  if ∀ a i ts, Z1 a i ts = 0 then
    return StepOut.stop { s1 with warned := true }
  let p1 ← compute_X_and_objective_multi X Z1 s1.uv reg true uv_constraint
  let s2 : LoopState n c t k L :=
    { s1 with pobj := s1.pobj ++ [p1], states := s1.states ++ [(Z1, s1.uv)] }
  let uv1 := func_d X Z1 s2.uv
  let s3 : LoopState n c t k L :=
    { s2 with uv := uv1, nD := s2.nD + 1, times := s2.times ++ [td ii] }
  let p2 ← compute_X_and_objective_multi X Z1 uv1 reg true uv_constraint
  let s4 : LoopState n c t k L :=
    { s3 with pobj := s3.pobj ++ [p2], states := s3.states ++ [(Z1, uv1)] }
  if p1 - p2 < eps then
    return StepOut.stop s4
  match stopping_pobj with
  | some floor => if p2 < floor then return StepOut.stop s4
                  else return StepOut.cont s4
  | none => return StepOut.cont s4

/-- The outer loop `for ii in range(n_iter)` with `break` semantics:
run at most `fuel` further iterations starting at index `ii`. -/
def driverLoop {n c t k L : ℕ} (zsolve : ZOracle n c t k L (t + 1 - L))
    (func_d : DOracle n c t k L (t + 1 - L)) (X : Tensor3 n c t)
    (reg : ℚ) (solver_z : String) (uv_constraint : String) (eps : ℚ)
    (stopping_pobj : Option ℚ) (tz td : ℕ → ℚ) :
    ℕ → ℕ → LoopState n c t k L → Except String (LoopState n c t k L)
  | 0, _, s => .ok s
  | fuel + 1, ii, s => do
      match ← iterBody zsolve func_d X reg solver_z uv_constraint eps
          stopping_pobj tz td ii s with
      | StepOut.stop s1 => .ok s1
      | StepOut.cont s1 =>
          driverLoop zsolve func_d X reg solver_z uv_constraint eps
            stopping_pobj tz td fuel (ii + 1) s1

/-- What `learn_d_z_multi` returns, with the ghost instrumentation of
`LoopState` carried along. -/
structure DriverResult (n c t k L : ℕ) : Type where
  pobj : List ℚ
  times : List ℚ
  uv : Mat k (c + L)
  Z : Tensor3 k n (t + 1 - L)
  nZ : ℕ
  nD : ℕ
  warned : Bool
  regLog : List ℚ
  states : List (Tensor3 k n (t + 1 - L) × Mat k (c + L))

/-- The driver `learn_d_z_multi` (source lines 129-212), with the two
stages, the least-squares refinement and the stage durations supplied
as oracles: project the initial atom bank, allocate all-zero
activations, record the initial objective with elapsed time 0, run the
outer loop with the warm-up weight `reg / 100`, and finish every exit
path with the least-squares refinement of the activations. -/
def learn_d_z_multi {n c t k L : ℕ} (zsolve : ZOracle n c t k L (t + 1 - L))
    (func_d : DOracle n c t k L (t + 1 - L))
    (lsq : LsqOracle n c t k L (t + 1 - L)) (X : Tensor3 n c t) (reg : ℚ)
    (n_iter : ℕ) (solver_z : String) (uv_constraint : String) (eps : ℚ)
    (uv_init : Mat k (c + L)) (stopping_pobj : Option ℚ) (tz td : ℕ → ℚ) :
    Except String (DriverResult n c t k L) := do
  let pr ← prox_uv uv_init uv_constraint
  let uv_hat := pr.1
  let Z0 := zeroZ k n (t + 1 - L)
  let p0 ← compute_X_and_objective_multi X Z0 uv_hat reg true uv_constraint
  let s0 : LoopState n c t k L :=
    { regCur := reg / 100, Z := Z0, uv := uv_hat, pobj := [p0],
      times := [0], nZ := 0, nD := 0, warned := false, regLog := [],
      states := [(Z0, uv_hat)] }
  let sF ← driverLoop zsolve func_d X reg solver_z uv_constraint eps
      stopping_pobj tz td n_iter 0 s0
  let Zfinal := lsq X sF.uv sF.Z
  return { pobj := sF.pobj, times := sF.times, uv := sF.uv, Z := Zfinal,
           nZ := sF.nZ, nD := sF.nD, warned := sF.warned,
           regLog := sF.regLog, states := sF.states }

/-! ## Concrete configurations used in counterexamples and witnesses

A single atom over a single channel with temporal support 1, on a single
one-sample trial with value 2 (`n = c = t = k = L = 1`, valid length 1). -/

/-- The data tensor: one trial, one channel, one sample with value 2. -/
def Xc : Tensor3 1 1 1 := fun _ _ _ => 2

/-- Atom bank `[[1, 1/2]]` (feasible for the box constraint). -/
def uvC4 : Mat 1 (1 + 1) := fun _ j => if (j : ℕ) = 0 then 1 else 1 / 2

/-- Atom bank `[[1, 1]]` (feasible for the box constraint). -/
def uv11 : Mat 1 (1 + 1) := fun _ _ => 1

/-- Atom bank `[[2, 2]]` (infeasible: box norm 2). -/
def uv22 : Mat 1 (1 + 1) := fun _ _ => 2

/-- The all-ones activation tensor for this configuration. -/
def oneZ : Tensor3 1 1 (1 + 1 - 1) := fun _ _ _ => 1

/-- Sparse-code stage behaviour returning all-ones activations. -/
def zOne : ZOracle 1 1 1 1 1 (1 + 1 - 1) := fun _ _ _ _ => fun _ _ _ => 1

/-- Sparse-code stage behaviour returning all-zero activations. -/
def zZero : ZOracle 1 1 1 1 1 (1 + 1 - 1) := fun _ _ _ _ => fun _ _ _ => 0

/-- Dictionary stage behaviour returning the bank `[[1, 1]]`. -/
def dC4 : DOracle 1 1 1 1 1 (1 + 1 - 1) := fun _ _ _ => uv11

/-- Dictionary stage behaviour returning the infeasible bank `[[2, 2]]`. -/
def dC1 : DOracle 1 1 1 1 1 (1 + 1 - 1) := fun _ _ _ => uv22

/-- Dictionary stage behaviour returning its warm-start bank unchanged. -/
def dId : DOracle 1 1 1 1 1 (1 + 1 - 1) := fun _ _ uv => uv

/-- Least-squares refinement behaviour that keeps the activations. -/
def lsqId : LsqOracle 1 1 1 1 1 (1 + 1 - 1) := fun _ _ Z => Z

/-- Stage duration oracle for the sparse-code stage (a nonzero constant,
so that accidental equalities cannot hide trace-length errors). -/
def tzq : ℕ → ℚ := fun _ => 7

/-- Stage duration oracle for the dictionary stage. -/
def tdq : ℕ → ℚ := fun _ => 9

/-- A degenerate run: the sparse-code stage returns all zeros at
iteration 0. -/
def runDeg : Except String (DriverResult 1 1 1 1 1) :=
  learn_d_z_multi zZero dC4 lsqId Xc (1 / 2) 1 "ista" "box" (1 / 2) uv11
    none tzq tdq

/-- A run with a negative regularization weight `reg = -1` and one
allowed iteration. -/
def runNeg : Except String (DriverResult 1 1 1 1 1) :=
  learn_d_z_multi zOne dId lsqId Xc (-1) 1 "ista" "box" (1 / 2) uv11
    none tzq tdq

/-- Objective-trace length and time-trace length of `runDeg`. -/
def runDeg_lens : Option (ℕ × ℕ) :=
  match runDeg with
  | .ok r => some (r.pobj.length, r.times.length)
  | .error _ => none

/-- Objective-trace length and sparse-code invocation count of
`runNeg`. -/
def runNeg_view : Option (ℕ × ℕ) :=
  match runNeg with
  | .ok r => some (r.pobj.length, r.nZ)
  | .error _ => none

/-- A loop state as the driver would hold it entering an iteration on
`Xc`: atom bank `uv11`, one trace entry, all-zero activations. -/
def sInit : LoopState 1 1 1 1 1 :=
  { regCur := 1 / 100, Z := zeroZ 1 1 (1 + 1 - 1), uv := uv11,
    pobj := [2], times := [0], nZ := 0, nD := 0, warned := false,
    regLog := [], states := [(zeroZ 1 1 (1 + 1 - 1), uv11)] }

/-- Like `sInit` but with atom bank `uvC4` and the warm-up weight for
`reg = 1/2`. -/
def sC4in : LoopState 1 1 1 1 1 :=
  { regCur := 1 / 200, Z := zeroZ 1 1 (1 + 1 - 1), uv := uvC4,
    pobj := [2], times := [0], nZ := 0, nD := 0, warned := false,
    regLog := [], states := [(zeroZ 1 1 (1 + 1 - 1), uvC4)] }

/-- The state `sInit` after one non-degenerate pass of the loop body at
iteration 0 with `reg = 1`, sparse-code output `oneZ` and dictionary
output `uv22`: the body records the feasibility-evaluated entries
`3/2` (after the sparse-code update) and `2` (after the dictionary
update, where the infeasible bank `uv22` is projected and the
activation copy rescaled). -/
def sC1out : LoopState 1 1 1 1 1 :=
  { regCur := 1 / 100, Z := oneZ, uv := uv22,
    pobj := [2, 3 / 2, 2], times := [0, 7, 9], nZ := 1, nD := 1,
    warned := false, regLog := [1 / 100],
    states := [(zeroZ 1 1 (1 + 1 - 1), uv11), (oneZ, uv11), (oneZ, uv22)] }

/-- The state `sC4in` after the iteration-0 pass with `reg = 1/2`,
sparse-code output `oneZ` and dictionary output `uv11`: the trace ends
with `13/8` and `1`. -/
def sC4out : LoopState 1 1 1 1 1 :=
  { regCur := 1 / 200, Z := oneZ, uv := uv11,
    pobj := [2, 13 / 8, 1], times := [0, 7, 9], nZ := 1, nD := 1,
    warned := false, regLog := [1 / 200],
    states := [(zeroZ 1 1 (1 + 1 - 1), uvC4), (oneZ, uvC4), (oneZ, uv11)] }

/-- The state `sC4out` after the iteration-1 pass (full weight `1/2`):
the appended entries are both `1`, so the convergence check stops. -/
def sC4fin : LoopState 1 1 1 1 1 :=
  { regCur := 1 / 2, Z := oneZ, uv := uv11,
    pobj := [2, 13 / 8, 1, 1, 1], times := [0, 7, 9, 7, 9], nZ := 2,
    nD := 2, warned := false, regLog := [1 / 200, 1 / 2],
    states := [(zeroZ 1 1 (1 + 1 - 1), uvC4), (oneZ, uvC4), (oneZ, uv11),
      (oneZ, uv11), (oneZ, uv11)] }

/-! ## Loop invariants (ghost-state bookkeeping of the driver) -/

/-- The trace-structure invariant maintained by the outer loop:
lengths and heads of the two trace lists, the stage-invocation counts,
the log of regularization weights passed to the sparse-code stage, and
the fact that every objective entry is the feasibility-mode objective,
at the full configured `reg`, of the logged (activations, atoms) state. -/
structure TraceInv {n c t k L : ℕ} (m : UvConstraint) (X : Tensor3 n c t)
    (reg : ℚ) (uv0 : Mat k (c + L)) (s : LoopState n c t k L) : Prop where
  pobj_len : s.pobj.length = 1 + 2 * s.nD
  times_len : s.times.length = 1 + s.nZ + s.nD
  times_head : s.times.head? = some 0
  warn_count : s.nZ = s.nD + (if s.warned then 1 else 0)
  regLog_eq : s.regLog =
    (List.range s.nZ).map (fun i => if i = 0 then reg / 100 else reg)
  states_len : s.states.length = s.pobj.length
  states_head : s.states.head? = some (zeroZ k n (t + 1 - L), uv0)
  pobj_spec : ∀ j : ℕ, s.pobj[j]? =
    (s.states[j]?).map (fun p => compute_obj_total m X p.1 p.2 reg)

/-- The extra facts that hold whenever the loop is about to run another
iteration (they can be broken by the final, loop-leaving state). -/
structure EntryInv {n c t k L : ℕ} (reg : ℚ)
    (s : LoopState n c t k L) : Prop where
  not_warned : s.warned = false
  regCur_eq : s.regCur = if s.nZ ≤ 1 then reg / 100 else reg
  zd_eq : s.nZ = s.nD

/-- Appending on the right preserves the head of a nonempty list. -/
theorem head?_append_some {α : Type} {l : List α} {a : α}
    (h : l.head? = some a) (l2 : List α) : (l ++ l2).head? = some a := by
  cases l with
  | nil => simp at h
  | cons b tl => simpa using h

/-- Monadic bind on a successful `Except` value reduces to the
continuation. -/
theorem exceptOkBind {ε α β : Type} (a : α) (f : α → Except ε β) :
    (Except.ok a : Except ε α) >>= f = f a := rfl

/-- Appending one element to two pointwise-related lists preserves the
pointwise relation between their optional lookups. -/
theorem getElem?_map_snoc {α β : Type} (f : β → α) (l : List α) (w : List β)
    (x : β) (hlen : w.length = l.length)
    (hspec : ∀ j : ℕ, l[j]? = (w[j]?).map f) :
    ∀ j : ℕ, (l ++ [f x])[j]? = ((w ++ [x])[j]?).map f := by
  intro j
  rcases lt_trichotomy j l.length with hj | hj | hj
  · rw [List.getElem?_append_left hj, List.getElem?_append_left (hlen ▸ hj),
      hspec j]
  · have h1 : (l ++ [f x])[l.length]? = some (f x) :=
      List.getElem?_concat_length l (f x)
    have h2 : (w ++ [x])[l.length]? = some x := by
      rw [← hlen]
      exact List.getElem?_concat_length w x
    rw [hj, h1, h2]
    rfl
  · have h1 : (l ++ [f x])[j]? = none := by
      apply List.getElem?_eq_none
      simp only [List.length_append, List.length_cons, List.length_nil]
      omega
    have h2 : (w ++ [x])[j]? = none := by
      apply List.getElem?_eq_none
      simp only [List.length_append, List.length_cons, List.length_nil]
      omega
    rw [h1, h2]
    rfl

/-- For a valid constraint-mode string, the feasibility-mode objective
evaluator succeeds with the value `compute_obj_total`. -/
theorem compute_obj_ok {n c t k L v : ℕ} (X : Tensor3 n c t)
    (Z_hat : Tensor3 k n v) (uv_hat : Mat k (c + L)) (reg : ℚ)
    (mode : String) (m : UvConstraint)
    (hm : parse_uv_constraint mode = .ok m) :
    compute_X_and_objective_multi X Z_hat uv_hat reg true mode =
      .ok (compute_obj_total m X Z_hat uv_hat reg) := by
  simp [compute_X_and_objective_multi, compute_X_and_objective_multi_call,
    hm, PyVar.start, PyVar.copy, PyVar.write, compute_obj_total]

/-- One pass of the loop body preserves the trace invariant; a continuing
pass also preserves the between-iterations facts and advances the
sparse-code count in lockstep with the iteration index. -/
theorem iterBody_inv {n c t k L : ℕ}
    (zsolve : ZOracle n c t k L (t + 1 - L))
    (func_d : DOracle n c t k L (t + 1 - L)) (X : Tensor3 n c t)
    (reg : ℚ) (solver_z uv_constraint : String) (eps : ℚ)
    (stopping_pobj : Option ℚ) (tz td : ℕ → ℚ) (m : UvConstraint)
    (uv0 : Mat k (c + L))
    (hm : parse_uv_constraint uv_constraint = .ok m)
    (hs : solver_z ∈ valid_solvers_z)
    (s : LoopState n c t k L)
    (hT : TraceInv m X reg uv0 s) (hE : EntryInv reg s) :
    ∃ out, iterBody zsolve func_d X reg solver_z uv_constraint eps
        stopping_pobj tz td s.nZ s = .ok out ∧
      TraceInv m X reg uv0 out.state ∧
      ∀ s1, out = StepOut.cont s1 → EntryInv reg s1 ∧ s1.nZ = s.nZ + 1 := by
  set ρ := if s.nZ = 1 then reg else s.regCur with hρdef
  have hρ : ρ = if s.nZ = 0 then reg / 100 else reg := by
    rw [hρdef, hE.regCur_eq]
    by_cases h0 : s.nZ = 0
    · rw [if_neg (by omega), if_pos (by omega), if_pos h0]
    · by_cases h1 : s.nZ = 1
      · rw [if_pos h1, if_neg h0]
      · rw [if_neg h1, if_neg (by omega), if_neg h0]
  set Z1 := zsolve X s.uv ρ s.Z with hZ1def
  have hupd : update_z_multi zsolve X s.uv ρ s.Z solver_z = .ok Z1 := by
    simp [update_z_multi, hs]
  have hreglog : s.regLog ++ [ρ] =
      (List.range (s.nZ + 1)).map
        (fun i => if i = 0 then reg / 100 else reg) := by
    rw [List.range_succ, List.map_append, ← hT.regLog_eq]
    simp [hρ]
  by_cases hz : ∀ a i ts, Z1 a i ts = 0
  · set sdeg : LoopState n c t k L := { s with
      regCur := ρ, Z := Z1,
      nZ := s.nZ + 1, regLog := s.regLog ++ [ρ],
      times := s.times ++ [tz s.nZ], warned := true } with hsdeg
    refine ⟨StepOut.stop sdeg, ?_, ?_, ?_⟩
    · simp only [iterBody, ← hρdef, ← hZ1def, hupd, exceptOkBind]
      rw [if_pos hz]
      rfl
    · constructor
      · show s.pobj.length = 1 + 2 * s.nD
        exact hT.pobj_len
      · show (s.times ++ [tz s.nZ]).length = 1 + (s.nZ + 1) + s.nD
        simp only [List.length_append, List.length_cons, List.length_nil,
          hT.times_len]
        omega
      · show (s.times ++ [tz s.nZ]).head? = some 0
        exact head?_append_some hT.times_head _
      · show s.nZ + 1 = s.nD + (if true then 1 else 0)
        rw [hE.zd_eq]
        simp
      · show s.regLog ++ [ρ] =
          (List.range (s.nZ + 1)).map
            (fun i => if i = 0 then reg / 100 else reg)
        exact hreglog
      · show s.states.length = s.pobj.length
        exact hT.states_len
      · show s.states.head? = some (zeroZ k n (t + 1 - L), uv0)
        exact hT.states_head
      · show ∀ j : ℕ, s.pobj[j]? =
          (s.states[j]?).map (fun p => compute_obj_total m X p.1 p.2 reg)
        exact hT.pobj_spec
    · intro s1 h
      cases h
  · have hob1 := compute_obj_ok X Z1 s.uv reg uv_constraint m hm
    set p1 := compute_obj_total m X Z1 s.uv reg with hp1def
    set uv1 := func_d X Z1 s.uv with huv1def
    have hob2 := compute_obj_ok X Z1 uv1 reg uv_constraint m hm
    set p2 := compute_obj_total m X Z1 uv1 reg with hp2def
    set s4 : LoopState n c t k L := { s with
      regCur := ρ, Z := Z1,
      uv := uv1, nZ := s.nZ + 1, nD := s.nD + 1,
      pobj := s.pobj ++ [p1] ++ [p2],
      times := s.times ++ [tz s.nZ] ++ [td s.nZ],
      regLog := s.regLog ++ [ρ],
      states := s.states ++ [(Z1, s.uv)] ++ [(Z1, uv1)] } with hs4
    have hT4 : TraceInv m X reg uv0 s4 := by
      constructor
      · show (s.pobj ++ [p1] ++ [p2]).length = 1 + 2 * (s.nD + 1)
        simp only [List.length_append, List.length_cons, List.length_nil,
          hT.pobj_len]
        omega
      · show (s.times ++ [tz s.nZ] ++ [td s.nZ]).length =
          1 + (s.nZ + 1) + (s.nD + 1)
        simp only [List.length_append, List.length_cons, List.length_nil,
          hT.times_len]
        omega
      · show (s.times ++ [tz s.nZ] ++ [td s.nZ]).head? = some 0
        exact head?_append_some (head?_append_some hT.times_head _) _
      · show s.nZ + 1 = s.nD + 1 + (if s.warned then 1 else 0)
        rw [hE.not_warned, hE.zd_eq]
        simp
      · show s.regLog ++ [ρ] =
          (List.range (s.nZ + 1)).map
            (fun i => if i = 0 then reg / 100 else reg)
        exact hreglog
      · show (s.states ++ [(Z1, s.uv)] ++ [(Z1, uv1)]).length =
          (s.pobj ++ [p1] ++ [p2]).length
        simp only [List.length_append, List.length_cons, List.length_nil,
          hT.states_len]
      · show (s.states ++ [(Z1, s.uv)] ++ [(Z1, uv1)]).head? =
          some (zeroZ k n (t + 1 - L), uv0)
        exact head?_append_some (head?_append_some hT.states_head _) _
      · show ∀ j : ℕ, (s.pobj ++ [p1] ++ [p2])[j]? =
          ((s.states ++ [(Z1, s.uv)] ++ [(Z1, uv1)])[j]?).map
            (fun p => compute_obj_total m X p.1 p.2 reg)
        rw [hp1def, hp2def]
        exact getElem?_map_snoc _ _ _ (Z1, uv1)
          (by simp [hT.states_len])
          (getElem?_map_snoc _ _ _ (Z1, s.uv) hT.states_len hT.pobj_spec)
    have hE4 : EntryInv reg s4 := by
      constructor
      · show s.warned = false
        exact hE.not_warned
      · show ρ = if s.nZ + 1 ≤ 1 then reg / 100 else reg
        rw [hρ]
        by_cases h0 : s.nZ = 0
        · rw [if_pos h0, if_pos (by omega)]
        · rw [if_neg h0, if_neg (by omega)]
      · show s.nZ + 1 = s.nD + 1
        rw [hE.zd_eq]
    have hnz4 : s4.nZ = s.nZ + 1 := rfl
    by_cases hconv : p1 - p2 < eps
    · refine ⟨StepOut.stop s4, ?_, hT4, ?_⟩
      · simp only [iterBody, ← hρdef, ← hZ1def, hupd, exceptOkBind]
        rw [if_neg hz]
        simp only [hob1, exceptOkBind, ← huv1def, hob2]
        rw [if_pos hconv]
        rfl
      · intro s1 h
        cases h
    · cases hstop : stopping_pobj with
      | none =>
          refine ⟨StepOut.cont s4, ?_, hT4, ?_⟩
          · simp only [iterBody, ← hρdef, ← hZ1def, hupd, exceptOkBind]
            rw [if_neg hz]
            simp only [hob1, exceptOkBind, ← huv1def, hob2]
            rw [if_neg hconv]
            rfl
          · intro s1 h
            cases h
            exact ⟨hE4, hnz4⟩
      | some floor =>
          by_cases hfl : p2 < floor
          · refine ⟨StepOut.stop s4, ?_, hT4, ?_⟩
            · simp only [iterBody, ← hρdef, ← hZ1def, hupd, exceptOkBind]
              rw [if_neg hz]
              simp only [hob1, exceptOkBind, ← huv1def, hob2]
              rw [if_neg hconv, if_pos hfl]
              rfl
            · intro s1 h
              cases h
          · refine ⟨StepOut.cont s4, ?_, hT4, ?_⟩
            · simp only [iterBody, ← hρdef, ← hZ1def, hupd, exceptOkBind]
              rw [if_neg hz]
              simp only [hob1, exceptOkBind, ← huv1def, hob2]
              rw [if_neg hconv, if_neg hfl]
              rfl
            · intro s1 h
              cases h
              exact ⟨hE4, hnz4⟩

/-- The outer loop, started on a state satisfying the invariants with the
iteration index equal to the sparse-solve count, returns a state
satisfying the trace invariant. -/
theorem driverLoop_inv {n c t k L : ℕ}
    (zsolve : ZOracle n c t k L (t + 1 - L))
    (func_d : DOracle n c t k L (t + 1 - L)) (X : Tensor3 n c t)
    (reg : ℚ) (solver_z uv_constraint : String) (eps : ℚ)
    (stopping_pobj : Option ℚ) (tz td : ℕ → ℚ) (m : UvConstraint)
    (uv0 : Mat k (c + L))
    (hm : parse_uv_constraint uv_constraint = .ok m)
    (hs : solver_z ∈ valid_solvers_z) :
    ∀ fuel ii : ℕ, ∀ s : LoopState n c t k L, ii = s.nZ →
      TraceInv m X reg uv0 s → EntryInv reg s →
      ∃ sF, driverLoop zsolve func_d X reg solver_z uv_constraint eps
          stopping_pobj tz td fuel ii s = .ok sF ∧
        TraceInv m X reg uv0 sF := by
  intro fuel
  induction fuel with
  | zero =>
      intro ii s hii hT hE
      exact ⟨s, rfl, hT⟩
  | succ f ih =>
      intro ii s hii hT hE
      subst hii
      obtain ⟨out, hbody, hTout, hcont⟩ := iterBody_inv zsolve func_d X reg
        solver_z uv_constraint eps stopping_pobj tz td m uv0 hm hs s hT hE
      cases out with
      | stop s1 =>
          refine ⟨s1, ?_, hTout⟩
          simp only [driverLoop, hbody, exceptOkBind]
      | cont s1 =>
          obtain ⟨hE1, hnz⟩ := hcont s1 rfl
          obtain ⟨sF, hloop, hTF⟩ := ih (s.nZ + 1) s1 hnz.symm hTout hE1
          refine ⟨sF, ?_, hTF⟩
          simp only [driverLoop, hbody, exceptOkBind]
          exact hloop

/-- Driver contract for a valid constraint mode and solver name: the run
succeeds and its traces satisfy the trace invariant, with every
objective entry being the feasibility-mode objective at full `reg` of
the logged state. -/
theorem learn_d_z_multi_spec {n c t k L : ℕ}
    (zsolve : ZOracle n c t k L (t + 1 - L))
    (func_d : DOracle n c t k L (t + 1 - L))
    (lsq : LsqOracle n c t k L (t + 1 - L)) (X : Tensor3 n c t) (reg : ℚ)
    (n_iter : ℕ) (solver_z uv_constraint : String) (eps : ℚ)
    (uv_init : Mat k (c + L)) (stopping_pobj : Option ℚ) (tz td : ℕ → ℚ)
    (m : UvConstraint) (hm : parse_uv_constraint uv_constraint = .ok m)
    (hs : solver_z ∈ valid_solvers_z) :
    ∃ r, learn_d_z_multi zsolve func_d lsq X reg n_iter solver_z
        uv_constraint eps uv_init stopping_pobj tz td = .ok r ∧
      r.pobj.length = 1 + 2 * r.nD ∧
      r.times.length = 1 + r.nZ + r.nD ∧
      r.times.head? = some 0 ∧
      r.nZ = r.nD + (if r.warned then 1 else 0) ∧
      r.regLog = (List.range r.nZ).map
        (fun i => if i = 0 then reg / 100 else reg) ∧
      r.states.length = r.pobj.length ∧
      r.states.head? = some (zeroZ k n (t + 1 - L),
        (prox_uv_total m uv_init).1) ∧
      ∀ j : ℕ, r.pobj[j]? = (r.states[j]?).map
        (fun p => compute_obj_total m X p.1 p.2 reg) := by
  have hprox : prox_uv uv_init uv_constraint =
      .ok (prox_uv_total m uv_init) := by
    simp [prox_uv, hm]
  have hp0 := compute_obj_ok X (zeroZ k n (t + 1 - L))
    (prox_uv_total m uv_init).1 reg uv_constraint m hm
  have hT0 : TraceInv m X reg (prox_uv_total m uv_init).1 {
      regCur := reg / 100, Z := zeroZ k n (t + 1 - L),
      uv := (prox_uv_total m uv_init).1,
      pobj := [compute_obj_total m X (zeroZ k n (t + 1 - L))
        (prox_uv_total m uv_init).1 reg],
      times := [0], nZ := 0, nD := 0, warned := false, regLog := [],
      states := [(zeroZ k n (t + 1 - L), (prox_uv_total m uv_init).1)] } := by
    constructor
    · rfl
    · rfl
    · rfl
    · rfl
    · rfl
    · rfl
    · rfl
    · intro j
      match j with
      | 0 => rfl
      | jj + 1 => rfl
  have hE0 : EntryInv reg {
      regCur := reg / 100, Z := zeroZ k n (t + 1 - L),
      uv := (prox_uv_total m uv_init).1,
      pobj := [compute_obj_total m X (zeroZ k n (t + 1 - L))
        (prox_uv_total m uv_init).1 reg],
      times := [0], nZ := 0, nD := 0, warned := false, regLog := [],
      states := [(zeroZ k n (t + 1 - L), (prox_uv_total m uv_init).1)] } := by
    constructor
    · rfl
    · simp
    · rfl
  obtain ⟨sF, hloop, hTF⟩ := driverLoop_inv zsolve func_d X reg solver_z
    uv_constraint eps stopping_pobj tz td m (prox_uv_total m uv_init).1
    hm hs n_iter 0 _ rfl hT0 hE0
  refine ⟨DriverResult.mk sF.pobj sF.times sF.uv (lsq X sF.uv sF.Z) sF.nZ
    sF.nD sF.warned sF.regLog sF.states, ?_, hTF.pobj_len, hTF.times_len,
    hTF.times_head, hTF.warn_count, hTF.regLog_eq, hTF.states_len,
    hTF.states_head, hTF.pobj_spec⟩
  simp only [learn_d_z_multi, hprox, exceptOkBind, hp0]
  rw [hloop]
  rfl

/-- On all-zero activations the feasibility-mode objective is half the
sum of squares of the data, independently of atoms, weight and mode. -/
theorem compute_obj_total_zeroZ {n c t k L vl : ℕ} (m : UvConstraint)
    (X : Tensor3 n c t) (uv : Mat k (c + L)) (reg : ℚ) :
    compute_obj_total m X (zeroZ k n vl) uv reg =
      (1 / 2) * ∑ i : Fin n, ∑ ch : Fin c, ∑ tt : Fin t, (X i ch tt) ^ 2 := by
  simp [compute_obj_total, objective, construct_X_multi, zeroZ, sq]

/-- C8: with feasibility evaluation requested, the objective evaluator
returns the caller's activation tensor and atom bank unchanged: the
projection and the activation rescaling happen on internal copies only. -/
theorem C8_evaluator_no_mutation {n c t k L vl : ℕ} (X : Tensor3 n c t)
    (Z_hat : Tensor3 k n vl) (uv_hat : Mat k (c + L)) (reg : ℚ)
    (uv_constraint : String) :
    (compute_X_and_objective_multi_call X Z_hat uv_hat reg true
        uv_constraint).2 = (Z_hat, uv_hat) := by
  cases hp : parse_uv_constraint uv_constraint with
  | error e =>
      simp [compute_X_and_objective_multi_call, hp, PyVar.start, PyVar.copy,
        PyVar.write]
  | ok m =>
      simp [compute_X_and_objective_multi_call, hp, PyVar.start, PyVar.copy,
        PyVar.write]

/-- C2 (amended): the objective trace has length 1 + 2×(completed
iterations) and the time trace has length 1 + (sparse solves) +
(dictionary updates) with first entry 0; the two lengths agree exactly
when the run did not end in the degenerate all-zero warning, and on a
degenerate run the time trace is one entry longer than the objective
trace. -/
theorem C2_trace_lengths {n c t k L : ℕ}
    (zsolve : ZOracle n c t k L (t + 1 - L))
    (func_d : DOracle n c t k L (t + 1 - L))
    (lsq : LsqOracle n c t k L (t + 1 - L)) (X : Tensor3 n c t) (reg : ℚ)
    (n_iter : ℕ) (solver_z uv_constraint : String) (eps : ℚ)
    (uv_init : Mat k (c + L)) (stopping_pobj : Option ℚ) (tz td : ℕ → ℚ)
    (m : UvConstraint) (hm : parse_uv_constraint uv_constraint = .ok m)
    (hs : solver_z ∈ valid_solvers_z) :
    ∃ r, learn_d_z_multi zsolve func_d lsq X reg n_iter solver_z
        uv_constraint eps uv_init stopping_pobj tz td = .ok r ∧
      r.pobj.length = 1 + 2 * r.nD ∧
      r.times.length = 1 + r.nZ + r.nD ∧
      r.times.head? = some 0 ∧
      (r.warned = false → r.times.length = r.pobj.length) ∧
      (r.warned = true → r.times.length = r.pobj.length + 1) := by
  obtain ⟨r, hr, h1, h2, h3, h4, h5, h6, h7, h8⟩ :=
    learn_d_z_multi_spec zsolve func_d lsq X reg n_iter solver_z
      uv_constraint eps uv_init stopping_pobj tz td m hm hs
  refine ⟨r, hr, h1, h2, h3, ?_, ?_⟩
  · intro hw
    rw [hw] at h4
    simp at h4
    omega
  · intro hw
    rw [hw] at h4
    simp at h4
    omega

/-- C5: the sparse-code stage is invoked with the configured weight
divided by 100 at outer iteration 0 and with the full configured weight
at every later iteration. -/
theorem C5_warmup_schedule {n c t k L : ℕ}
    (zsolve : ZOracle n c t k L (t + 1 - L))
    (func_d : DOracle n c t k L (t + 1 - L))
    (lsq : LsqOracle n c t k L (t + 1 - L)) (X : Tensor3 n c t) (reg : ℚ)
    (n_iter : ℕ) (solver_z uv_constraint : String) (eps : ℚ)
    (uv_init : Mat k (c + L)) (stopping_pobj : Option ℚ) (tz td : ℕ → ℚ)
    (m : UvConstraint) (hm : parse_uv_constraint uv_constraint = .ok m)
    (hs : solver_z ∈ valid_solvers_z) :
    ∃ r, learn_d_z_multi zsolve func_d lsq X reg n_iter solver_z
        uv_constraint eps uv_init stopping_pobj tz td = .ok r ∧
      ∀ i : ℕ, ∀ ρ : ℚ, r.regLog[i]? = some ρ →
        ρ = if i = 0 then reg / 100 else reg := by
  obtain ⟨r, hr, h1, h2, h3, h4, h5, h6, h7, h8⟩ :=
    learn_d_z_multi_spec zsolve func_d lsq X reg n_iter solver_z
      uv_constraint eps uv_init stopping_pobj tz td m hm hs
  refine ⟨r, hr, ?_⟩
  intro i ρ hiρ
  rw [h5, List.getElem?_map] at hiρ
  rcases lt_or_ge i r.nZ with hi | hi
  · rw [List.getElem?_range hi] at hiρ
    simp at hiρ
    exact hiρ.symm
  · rw [List.getElem?_eq_none (by simpa using hi)] at hiρ
    simp at hiρ

/-- C1 (amended): every objective-trace entry — initial, after the
sparse-code update and after the dictionary update — is produced by
`compute_X_and_objective_multi` with `feasible_evaluation = true` (the
evaluator's default: it projects a copy of the atom bank and rescales a
copy of the activations), not by the raw objective; it does use the full
configured regularization weight even during the iteration-0 warm-up. -/
theorem C1_trace_entries_feasible_full_reg {n c t k L : ℕ}
    (zsolve : ZOracle n c t k L (t + 1 - L))
    (func_d : DOracle n c t k L (t + 1 - L))
    (lsq : LsqOracle n c t k L (t + 1 - L)) (X : Tensor3 n c t) (reg : ℚ)
    (n_iter : ℕ) (solver_z uv_constraint : String) (eps : ℚ)
    (uv_init : Mat k (c + L)) (stopping_pobj : Option ℚ) (tz td : ℕ → ℚ)
    (m : UvConstraint) (hm : parse_uv_constraint uv_constraint = .ok m)
    (hs : solver_z ∈ valid_solvers_z) :
    ∃ r, learn_d_z_multi zsolve func_d lsq X reg n_iter solver_z
        uv_constraint eps uv_init stopping_pobj tz td = .ok r ∧
      r.states.length = r.pobj.length ∧
      ∀ j : ℕ, ∀ p : Tensor3 k n (t + 1 - L) × Mat k (c + L),
        r.states[j]? = some p →
        r.pobj[j]? = (compute_X_and_objective_multi X p.1 p.2 reg true
          uv_constraint).toOption := by
  obtain ⟨r, hr, h1, h2, h3, h4, h5, h6, h7, h8⟩ :=
    learn_d_z_multi_spec zsolve func_d lsq X reg n_iter solver_z
      uv_constraint eps uv_init stopping_pobj tz td m hm hs
  refine ⟨r, hr, h6, ?_⟩
  intro j p hp
  rw [h8 j, hp, compute_obj_ok X p.1 p.2 reg uv_constraint m hm]
  rfl

/-- C10: the first objective-trace entry equals half the sum of the
squares of the entries of the data tensor, for every regularization
weight, every initial atom bank and every (valid) constraint mode. -/
theorem C10_initial_objective {n c t k L : ℕ}
    (zsolve : ZOracle n c t k L (t + 1 - L))
    (func_d : DOracle n c t k L (t + 1 - L))
    (lsq : LsqOracle n c t k L (t + 1 - L)) (X : Tensor3 n c t) (reg : ℚ)
    (n_iter : ℕ) (solver_z uv_constraint : String) (eps : ℚ)
    (uv_init : Mat k (c + L)) (stopping_pobj : Option ℚ) (tz td : ℕ → ℚ)
    (m : UvConstraint) (hm : parse_uv_constraint uv_constraint = .ok m)
    (hs : solver_z ∈ valid_solvers_z) :
    ∃ r, learn_d_z_multi zsolve func_d lsq X reg n_iter solver_z
        uv_constraint eps uv_init stopping_pobj tz td = .ok r ∧
      r.pobj.head? = some ((1 / 2) *
        ∑ i : Fin n, ∑ ch : Fin c, ∑ tt : Fin t, (X i ch tt) ^ 2) := by
  obtain ⟨r, hr, h1, h2, h3, h4, h5, h6, h7, h8⟩ :=
    learn_d_z_multi_spec zsolve func_d lsq X reg n_iter solver_z
      uv_constraint eps uv_init stopping_pobj tz td m hm hs
  refine ⟨r, hr, ?_⟩
  rw [List.head?_eq_getElem?] at h7 ⊢
  rw [h8 0, h7]
  simp [compute_obj_total_zeroZ]

/-- C9: a zero iteration budget is legal: the run returns a trace of
exactly one entry, the projected initial atom bank, and activations
equal to the least-squares refinement applied to the all-zero initial
activation tensor. -/
theorem C9_zero_budget {n c t k L : ℕ}
    (zsolve : ZOracle n c t k L (t + 1 - L))
    (func_d : DOracle n c t k L (t + 1 - L))
    (lsq : LsqOracle n c t k L (t + 1 - L)) (X : Tensor3 n c t) (reg : ℚ)
    (solver_z uv_constraint : String) (eps : ℚ)
    (uv_init : Mat k (c + L)) (stopping_pobj : Option ℚ) (tz td : ℕ → ℚ)
    (m : UvConstraint) (hm : parse_uv_constraint uv_constraint = .ok m) :
    ∃ r, learn_d_z_multi zsolve func_d lsq X reg 0 solver_z
        uv_constraint eps uv_init stopping_pobj tz td = .ok r ∧
      r.pobj.length = 1 ∧
      r.uv = (prox_uv_total m uv_init).1 ∧
      r.Z = lsq X (prox_uv_total m uv_init).1 (zeroZ k n (t + 1 - L)) := by
  have hprox : prox_uv uv_init uv_constraint =
      .ok (prox_uv_total m uv_init) := by
    simp [prox_uv, hm]
  have hp0 := compute_obj_ok X (zeroZ k n (t + 1 - L))
    (prox_uv_total m uv_init).1 reg uv_constraint m hm
  refine ⟨DriverResult.mk
      [compute_obj_total m X (zeroZ k n (t + 1 - L))
        (prox_uv_total m uv_init).1 reg]
      [0] (prox_uv_total m uv_init).1
      (lsq X (prox_uv_total m uv_init).1 (zeroZ k n (t + 1 - L)))
      0 0 false []
      [(zeroZ k n (t + 1 - L), (prox_uv_total m uv_init).1)],
    ?_, rfl, rfl, rfl⟩
  simp only [learn_d_z_multi, hprox, exceptOkBind, hp0, driverLoop]
  rfl

/-- Monadic bind on a failed `Except` value propagates the error. -/
theorem exceptErrBind {ε α β : Type} (e : ε) (f : α → Except ε β) :
    (Except.error e : Except ε α) >>= f = .error e := rfl

/-- With a zero iteration budget the driver returns immediately after the
initialization and the least-squares refinement, for any solver name. -/
theorem learn_zero_iter {n c t k L : ℕ}
    (zsolve : ZOracle n c t k L (t + 1 - L))
    (func_d : DOracle n c t k L (t + 1 - L))
    (lsq : LsqOracle n c t k L (t + 1 - L)) (X : Tensor3 n c t) (reg : ℚ)
    (solver_z uv_constraint : String) (eps : ℚ)
    (uv_init : Mat k (c + L)) (stopping_pobj : Option ℚ) (tz td : ℕ → ℚ)
    (m : UvConstraint) (hm : parse_uv_constraint uv_constraint = .ok m) :
    learn_d_z_multi zsolve func_d lsq X reg 0 solver_z uv_constraint eps
        uv_init stopping_pobj tz td = .ok (DriverResult.mk
      [compute_obj_total m X (zeroZ k n (t + 1 - L))
        (prox_uv_total m uv_init).1 reg]
      [0] (prox_uv_total m uv_init).1
      (lsq X (prox_uv_total m uv_init).1 (zeroZ k n (t + 1 - L)))
      0 0 false []
      [(zeroZ k n (t + 1 - L), (prox_uv_total m uv_init).1)]) := by
  have hprox : prox_uv uv_init uv_constraint =
      .ok (prox_uv_total m uv_init) := by
    simp [prox_uv, hm]
  have hp0 := compute_obj_ok X (zeroZ k n (t + 1 - L))
    (prox_uv_total m uv_init).1 reg uv_constraint m hm
  simp only [learn_d_z_multi, hprox, exceptOkBind, hp0, driverLoop]
  rfl

/-- C3 (amended): an unknown constraint mode makes the driver fail
before any iteration (the initial projection raises); a non-positive
regularization weight is NOT validated and the driver runs normally; an
unknown sparse-code solver name does not fail before the loop: with a
zero iteration budget the run succeeds, and with a positive budget the
failure is raised by the first sparse-code invocation, inside
iteration 0. -/
theorem C3_config_validation {n c t k L : ℕ}
    (zsolve : ZOracle n c t k L (t + 1 - L))
    (func_d : DOracle n c t k L (t + 1 - L))
    (lsq : LsqOracle n c t k L (t + 1 - L)) (X : Tensor3 n c t)
    (eps : ℚ) (uv_init : Mat k (c + L)) (stopping_pobj : Option ℚ)
    (tz td : ℕ → ℚ) :
    (∀ reg : ℚ, ∀ n_iter : ℕ, ∀ solver_z mode : String,
      (∀ m : UvConstraint, parse_uv_constraint mode ≠ .ok m) →
      ∃ e, learn_d_z_multi zsolve func_d lsq X reg n_iter solver_z mode
        eps uv_init stopping_pobj tz td = .error e) ∧
    (∀ reg : ℚ, reg ≤ 0 → ∀ n_iter : ℕ, ∀ solver_z mode : String,
      ∀ m : UvConstraint, parse_uv_constraint mode = .ok m →
      solver_z ∈ valid_solvers_z →
      ∃ r, learn_d_z_multi zsolve func_d lsq X reg n_iter solver_z mode
        eps uv_init stopping_pobj tz td = .ok r) ∧
    (∀ reg : ℚ, ∀ solver_z mode : String, ∀ m : UvConstraint,
      parse_uv_constraint mode = .ok m →
      ∃ r, learn_d_z_multi zsolve func_d lsq X reg 0 solver_z mode
        eps uv_init stopping_pobj tz td = .ok r) ∧
    (∀ reg : ℚ, ∀ n_iter : ℕ, 1 ≤ n_iter → ∀ solver_z mode : String,
      ∀ m : UvConstraint, parse_uv_constraint mode = .ok m →
      solver_z ∉ valid_solvers_z →
      ∃ e, learn_d_z_multi zsolve func_d lsq X reg n_iter solver_z mode
        eps uv_init stopping_pobj tz td = .error e) := by
  refine ⟨?_, ?_, ?_, ?_⟩
  · intro reg n_iter solver_z mode hbad
    cases hpm : parse_uv_constraint mode with
    | ok m => exact absurd hpm (hbad m)
    | error e =>
        refine ⟨e, ?_⟩
        simp [learn_d_z_multi, prox_uv, hpm, exceptErrBind]
  · intro reg _hreg n_iter solver_z mode m hm hsv
    obtain ⟨r, hr, _⟩ := learn_d_z_multi_spec zsolve func_d lsq X reg n_iter
      solver_z mode eps uv_init stopping_pobj tz td m hm hsv
    exact ⟨r, hr⟩
  · intro reg solver_z mode m hm
    exact ⟨_, learn_zero_iter zsolve func_d lsq X reg solver_z mode eps
      uv_init stopping_pobj tz td m hm⟩
  · intro reg n_iter hn solver_z mode m hm hsv
    obtain ⟨n2, rfl⟩ : ∃ n2, n_iter = n2 + 1 := ⟨n_iter - 1, by omega⟩
    have hprox : prox_uv uv_init mode = .ok (prox_uv_total m uv_init) := by
      simp [prox_uv, hm]
    have hp0 := compute_obj_ok X (zeroZ k n (t + 1 - L))
      (prox_uv_total m uv_init).1 reg mode m hm
    refine ⟨"unknown solver", ?_⟩
    simp [learn_d_z_multi, hprox, hp0, driverLoop, iterBody,
      update_z_multi, hsv, exceptOkBind, exceptErrBind]

/-- C4 (amended): when a stopping objective is configured, a loop-body
pass whose sparse-code result is not degenerate terminates the outer
loop whenever the objective recorded after the dictionary update is
STRICTLY below the floor (the source compares with a strict `<`, so
exact equality with the floor does not stop the loop). -/
theorem C4_stop_when_strictly_below {n c t k L : ℕ}
    (zsolve : ZOracle n c t k L (t + 1 - L))
    (func_d : DOracle n c t k L (t + 1 - L)) (X : Tensor3 n c t)
    (reg : ℚ) (solver_z uv_constraint : String) (eps floor : ℚ)
    (tz td : ℕ → ℚ) (ii : ℕ) (s : LoopState n c t k L)
    (m : UvConstraint)
    (hm : parse_uv_constraint uv_constraint = .ok m)
    (hs : solver_z ∈ valid_solvers_z)
    (Z1 : Tensor3 k n (t + 1 - L))
    (hZ1 : Z1 = zsolve X s.uv (if ii = 1 then reg else s.regCur) s.Z)
    (uv1 : Mat k (c + L)) (huv1 : uv1 = func_d X Z1 s.uv)
    (hz : ¬ ∀ a i ts, Z1 a i ts = 0)
    (hbelow : compute_obj_total m X Z1 uv1 reg < floor) :
    ∃ s1, iterBody zsolve func_d X reg solver_z uv_constraint eps
      (some floor) tz td ii s = .ok (StepOut.stop s1) := by
  have hupd : update_z_multi zsolve X s.uv
      (if ii = 1 then reg else s.regCur) s.Z solver_z = .ok Z1 := by
    simp [update_z_multi, hs, hZ1]
  have hob1 := compute_obj_ok X Z1 s.uv reg uv_constraint m hm
  have hob2 := compute_obj_ok X Z1 uv1 reg uv_constraint m hm
  by_cases hconv : compute_obj_total m X Z1 s.uv reg -
      compute_obj_total m X Z1 uv1 reg < eps
  · exact ⟨_, by
      simp only [iterBody, hupd, exceptOkBind]
      rw [if_neg hz]
      simp only [hob1, exceptOkBind, ← huv1, hob2]
      rw [if_pos hconv]
      rfl⟩
  · exact ⟨_, by
      simp only [iterBody, hupd, exceptOkBind]
      rw [if_neg hz]
      simp only [hob1, exceptOkBind, ← huv1, hob2]
      rw [if_neg hconv, if_pos hbelow]
      rfl⟩

/-- C6: if the sparse-code stage returns an all-zero activation tensor,
the loop body emits the too-large-regularization warning, skips the
dictionary update, and leaves the loop, keeping the trace accumulated so
far; the loop wrapper returns that state normally instead of raising. -/
theorem C6_degenerate_warn_and_stop {n c t k L : ℕ}
    (zsolve : ZOracle n c t k L (t + 1 - L))
    (func_d : DOracle n c t k L (t + 1 - L)) (X : Tensor3 n c t)
    (reg : ℚ) (solver_z uv_constraint : String) (eps : ℚ)
    (stopping_pobj : Option ℚ) (tz td : ℕ → ℚ) (ii fuel : ℕ)
    (s : LoopState n c t k L)
    (hs : solver_z ∈ valid_solvers_z)
    (Z1 : Tensor3 k n (t + 1 - L))
    (hZ1 : Z1 = zsolve X s.uv (if ii = 1 then reg else s.regCur) s.Z)
    (hz : ∀ a i ts, Z1 a i ts = 0) :
    ∃ s1, iterBody zsolve func_d X reg solver_z uv_constraint eps
        stopping_pobj tz td ii s = .ok (StepOut.stop s1) ∧
      s1.warned = true ∧ s1.pobj = s.pobj ∧ s1.states = s.states ∧
      s1.nD = s.nD ∧ s1.nZ = s.nZ + 1 ∧ s1.uv = s.uv ∧
      s1.times = s.times ++ [tz ii] ∧
      driverLoop zsolve func_d X reg solver_z uv_constraint eps
        stopping_pobj tz td (fuel + 1) ii s = .ok s1 := by
  have hupd : update_z_multi zsolve X s.uv
      (if ii = 1 then reg else s.regCur) s.Z solver_z = .ok Z1 := by
    simp [update_z_multi, hs, hZ1]
  have hbody : iterBody zsolve func_d X reg solver_z uv_constraint eps
      stopping_pobj tz td ii s = .ok (StepOut.stop { s with
        regCur := if ii = 1 then reg else s.regCur, Z := Z1,
        nZ := s.nZ + 1,
        regLog := s.regLog ++ [if ii = 1 then reg else s.regCur],
        times := s.times ++ [tz ii], warned := true }) := by
    simp only [iterBody, hupd, exceptOkBind]
    rw [if_pos hz]
    rfl
  refine ⟨_, hbody, rfl, rfl, rfl, rfl, rfl, rfl, rfl, ?_⟩
  simp only [driverLoop, hbody, exceptOkBind]

/-- C7: with no stopping objective configured and a non-degenerate
sparse-code result, the loop body stops exactly when the difference
between the two entries it appended this pass — the objective after the
sparse-code update minus the objective after the dictionary update,
which are precisely the two most recent trace entries — is strictly
below `eps`. -/
theorem C7_convergence_last_two_entries {n c t k L : ℕ}
    (zsolve : ZOracle n c t k L (t + 1 - L))
    (func_d : DOracle n c t k L (t + 1 - L)) (X : Tensor3 n c t)
    (reg : ℚ) (solver_z uv_constraint : String) (eps : ℚ)
    (tz td : ℕ → ℚ) (ii : ℕ) (s : LoopState n c t k L)
    (m : UvConstraint)
    (hm : parse_uv_constraint uv_constraint = .ok m)
    (hs : solver_z ∈ valid_solvers_z)
    (Z1 : Tensor3 k n (t + 1 - L))
    (hZ1 : Z1 = zsolve X s.uv (if ii = 1 then reg else s.regCur) s.Z)
    (uv1 : Mat k (c + L)) (huv1 : uv1 = func_d X Z1 s.uv)
    (hz : ¬ ∀ a i ts, Z1 a i ts = 0) :
    ((∃ s1, iterBody zsolve func_d X reg solver_z uv_constraint eps
        none tz td ii s = .ok (StepOut.stop s1)) ↔
      compute_obj_total m X Z1 s.uv reg -
        compute_obj_total m X Z1 uv1 reg < eps) ∧
    ∀ out, iterBody zsolve func_d X reg solver_z uv_constraint eps
        none tz td ii s = .ok out →
      out.state.pobj = s.pobj ++ [compute_obj_total m X Z1 s.uv reg,
        compute_obj_total m X Z1 uv1 reg] := by
  have hupd : update_z_multi zsolve X s.uv
      (if ii = 1 then reg else s.regCur) s.Z solver_z = .ok Z1 := by
    simp [update_z_multi, hs, hZ1]
  have hob1 := compute_obj_ok X Z1 s.uv reg uv_constraint m hm
  have hob2 := compute_obj_ok X Z1 uv1 reg uv_constraint m hm
  by_cases hconv : compute_obj_total m X Z1 s.uv reg -
      compute_obj_total m X Z1 uv1 reg < eps
  · have hbody : iterBody zsolve func_d X reg solver_z uv_constraint eps
        none tz td ii s = .ok (StepOut.stop { s with
          regCur := if ii = 1 then reg else s.regCur, Z := Z1, uv := uv1,
          nZ := s.nZ + 1, nD := s.nD + 1,
          pobj := s.pobj ++ [compute_obj_total m X Z1 s.uv reg] ++
            [compute_obj_total m X Z1 uv1 reg],
          times := s.times ++ [tz ii] ++ [td ii],
          regLog := s.regLog ++ [if ii = 1 then reg else s.regCur],
          states := s.states ++ [(Z1, s.uv)] ++ [(Z1, uv1)] }) := by
      simp only [iterBody, hupd, exceptOkBind]
      rw [if_neg hz]
      simp only [hob1, exceptOkBind, ← huv1, hob2]
      rw [if_pos hconv]
      rfl
    constructor
    · exact ⟨fun _ => hconv, fun _ => ⟨_, hbody⟩⟩
    · intro out hout
      rw [hbody] at hout
      have h := Except.ok.inj hout
      rw [← h]
      simp [StepOut.state, List.append_assoc]
  · have hbody : iterBody zsolve func_d X reg solver_z uv_constraint eps
        none tz td ii s = .ok (StepOut.cont { s with
          regCur := if ii = 1 then reg else s.regCur, Z := Z1, uv := uv1,
          nZ := s.nZ + 1, nD := s.nD + 1,
          pobj := s.pobj ++ [compute_obj_total m X Z1 s.uv reg] ++
            [compute_obj_total m X Z1 uv1 reg],
          times := s.times ++ [tz ii] ++ [td ii],
          regLog := s.regLog ++ [if ii = 1 then reg else s.regCur],
          states := s.states ++ [(Z1, s.uv)] ++ [(Z1, uv1)] }) := by
      simp only [iterBody, hupd, exceptOkBind]
      rw [if_neg hz]
      simp only [hob1, exceptOkBind, ← huv1, hob2]
      rw [if_neg hconv]
      rfl
    constructor
    · constructor
      · rintro ⟨s1, hstop⟩
        rw [hbody] at hstop
        exact StepOut.noConfusion (Except.ok.inj hstop)
      · intro hcv
        exact absurd hcv hconv
    · intro out hout
      rw [hbody] at hout
      have h := Except.ok.inj hout
      rw [← h]
      simp [StepOut.state, List.append_assoc]

/-- Concrete objective value: all-one activations, bank `[[1, 1]]`,
`reg = 1`. -/
theorem obj_oneZ_uv11_one :
    compute_obj_total UvConstraint.box Xc oneZ uv11 1 = 3 / 2 := by
  norm_num [compute_obj_total, objective, construct_X_multi, _get_D,
    prox_uv_total, Xc, oneZ, uv11, List.ofFn_succ, Fin.sum_univ_succ,
    max_def, abs]

/-- Concrete objective value: all-one activations, infeasible bank
`[[2, 2]]` (projected to `[[1, 1]]` with factor 2), `reg = 1`. -/
theorem obj_oneZ_uv22_one :
    compute_obj_total UvConstraint.box Xc oneZ uv22 1 = 2 := by
  norm_num [compute_obj_total, objective, construct_X_multi, _get_D,
    prox_uv_total, Xc, oneZ, uv22, List.ofFn_succ, Fin.sum_univ_succ,
    max_def, abs]

/-- Concrete raw (not feasibility-projected) objective at the same state
as `obj_oneZ_uv22_one`: the values differ (3 versus 2). -/
theorem obj_raw_oneZ_uv22 :
    compute_X_and_objective_multi Xc oneZ uv22 1 false "box" = .ok 3 := by
  norm_num [compute_X_and_objective_multi, compute_X_and_objective_multi_call,
    PyVar.start, objective, construct_X_multi, _get_D, Xc, oneZ, uv22,
    Fin.sum_univ_succ]

/-- Concrete objective value: all-one activations, bank `[[1, 1/2]]`,
`reg = 1/2`. -/
theorem obj_oneZ_uvC4_half :
    compute_obj_total UvConstraint.box Xc oneZ uvC4 (1 / 2) = 13 / 8 := by
  norm_num [compute_obj_total, objective, construct_X_multi, _get_D,
    prox_uv_total, Xc, oneZ, uvC4, List.ofFn_succ, Fin.sum_univ_succ,
    max_def, abs]

/-- Concrete objective value: all-one activations, bank `[[1, 1]]`,
`reg = 1/2`. -/
theorem obj_oneZ_uv11_half :
    compute_obj_total UvConstraint.box Xc oneZ uv11 (1 / 2) = 1 := by
  norm_num [compute_obj_total, objective, construct_X_multi, _get_D,
    prox_uv_total, Xc, oneZ, uv11, List.ofFn_succ, Fin.sum_univ_succ,
    max_def, abs]

/-- C1 counterexample: in a concrete loop-body pass the entry recorded
after the dictionary update is 2 (feasibility-projected evaluation of
the infeasible bank `[[2, 2]]`), while the raw objective at exactly the
logged state is 3 — the trace entry is not computed raw. -/
theorem C1_counterexample :
    iterBody zOne dC1 Xc 1 "ista" "box" (1 / 1000) none tzq tdq 0 sInit
      = .ok (StepOut.stop sC1out) ∧
    sC1out.pobj = [2, 3 / 2, 2] ∧
    sC1out.states[2]? = some (oneZ, uv22) ∧
    compute_X_and_objective_multi Xc oneZ uv22 1 false "box" = .ok 3 ∧
    (2 : ℚ) ≠ 3 := by
  refine ⟨?_, rfl, rfl, obj_raw_oneZ_uv22, by norm_num⟩
  have hupd : update_z_multi zOne Xc sInit.uv sInit.regCur sInit.Z "ista"
      = .ok oneZ := by
    unfold update_z_multi
    rw [if_pos (show "ista" ∈ valid_solvers_z by simp [valid_solvers_z])]
    rfl
  have hz : ¬ ∀ (a : Fin 1) (i : Fin 1) (ts : Fin (1 + 1 - 1)),
      oneZ a i ts = 0 :=
    fun h => one_ne_zero (h 0 0 0)
  have hob1 : compute_X_and_objective_multi Xc oneZ sInit.uv 1 true "box"
      = .ok (3 / 2) := by
    rw [compute_obj_ok Xc oneZ sInit.uv 1 "box" UvConstraint.box rfl]
    rw [show sInit.uv = uv11 from rfl, obj_oneZ_uv11_one]
  have hob2 : compute_X_and_objective_multi Xc oneZ (dC1 Xc oneZ sInit.uv)
      1 true "box" = .ok 2 := by
    rw [show dC1 Xc oneZ sInit.uv = uv22 from rfl]
    rw [compute_obj_ok Xc oneZ uv22 1 "box" UvConstraint.box rfl,
      obj_oneZ_uv22_one]
  simp only [iterBody, if_neg (show ¬ ((0 : ℕ) = 1) by decide), hupd,
    exceptOkBind]
  rw [if_neg hz]
  simp only [hob1, exceptOkBind, hob2]
  rw [if_pos (show (3 : ℚ) / 2 - 2 < 1 / 1000 by norm_num)]
  rfl

/-- C4 counterexample: with stopping objective 1 configured, the
iteration-0 pass ends with most recent trace entry exactly 1 yet
continues (equality with the floor does not stop), and the loop indeed
runs a second sparse-code invocation. -/
theorem C4_counterexample :
    iterBody zOne dC4 Xc (1 / 2) "ista" "box" (1 / 2) (some 1) tzq tdq 0 sC4in
      = .ok (StepOut.cont sC4out) ∧
    sC4out.pobj.getLast? = some 1 ∧
    driverLoop zOne dC4 Xc (1 / 2) "ista" "box" (1 / 2) (some 1) tzq tdq
      2 0 sC4in = .ok sC4fin ∧
    sC4fin.nZ = 2 := by
  have hz : ¬ ∀ (a : Fin 1) (i : Fin 1) (ts : Fin (1 + 1 - 1)),
      oneZ a i ts = 0 :=
    fun h => one_ne_zero (h 0 0 0)
  have hupd0 : update_z_multi zOne Xc sC4in.uv sC4in.regCur sC4in.Z "ista"
      = .ok oneZ := by
    unfold update_z_multi
    rw [if_pos (show "ista" ∈ valid_solvers_z by simp [valid_solvers_z])]
    rfl
  have hob1 : compute_X_and_objective_multi Xc oneZ sC4in.uv (1 / 2)
      true "box" = .ok (13 / 8) := by
    rw [compute_obj_ok Xc oneZ sC4in.uv (1 / 2) "box" UvConstraint.box rfl]
    rw [show sC4in.uv = uvC4 from rfl, obj_oneZ_uvC4_half]
  have hob2 : compute_X_and_objective_multi Xc oneZ (dC4 Xc oneZ sC4in.uv)
      (1 / 2) true "box" = .ok 1 := by
    rw [show dC4 Xc oneZ sC4in.uv = uv11 from rfl]
    rw [compute_obj_ok Xc oneZ uv11 (1 / 2) "box" UvConstraint.box rfl,
      obj_oneZ_uv11_half]
  have hbody0 : iterBody zOne dC4 Xc (1 / 2) "ista" "box" (1 / 2) (some 1)
      tzq tdq 0 sC4in = .ok (StepOut.cont sC4out) := by
    simp only [iterBody, if_neg (show ¬ ((0 : ℕ) = 1) by decide), hupd0,
      exceptOkBind]
    rw [if_neg hz]
    simp only [hob1, exceptOkBind, hob2]
    rw [if_neg (show ¬ ((13 : ℚ) / 8 - 1 < 1 / 2) by norm_num)]
    rw [if_neg (show ¬ ((1 : ℚ) < 1) by norm_num)]
    rfl
  have hupd1 : update_z_multi zOne Xc sC4out.uv ((1 : ℚ) / 2) sC4out.Z
      "ista" = .ok oneZ := by
    unfold update_z_multi
    rw [if_pos (show "ista" ∈ valid_solvers_z by simp [valid_solvers_z])]
    rfl
  have hob3 : compute_X_and_objective_multi Xc oneZ sC4out.uv (1 / 2)
      true "box" = .ok 1 := by
    rw [compute_obj_ok Xc oneZ sC4out.uv (1 / 2) "box" UvConstraint.box rfl]
    rw [show sC4out.uv = uv11 from rfl, obj_oneZ_uv11_half]
  have hob4 : compute_X_and_objective_multi Xc oneZ (dC4 Xc oneZ sC4out.uv)
      (1 / 2) true "box" = .ok 1 := by
    rw [show dC4 Xc oneZ sC4out.uv = uv11 from rfl]
    rw [compute_obj_ok Xc oneZ uv11 (1 / 2) "box" UvConstraint.box rfl,
      obj_oneZ_uv11_half]
  have hbody1 : iterBody zOne dC4 Xc (1 / 2) "ista" "box" (1 / 2) (some 1)
      tzq tdq 1 sC4out = .ok (StepOut.stop sC4fin) := by
    simp only [iterBody, if_pos (show (1 : ℕ) = 1 from rfl),
      eq_self_iff_true, if_true, hupd1, exceptOkBind]
    rw [if_neg hz]
    simp only [hob3, exceptOkBind, hob4]
    rw [if_pos (show (1 : ℚ) - 1 < 1 / 2 by norm_num)]
    rfl
  refine ⟨hbody0, rfl, ?_, rfl⟩
  simp only [driverLoop, hbody0, exceptOkBind, hbody1]

set_option maxHeartbeats 1600000 in
set_option maxRecDepth 8000 in
/-- C2 counterexample: on the degenerate run `runDeg` the objective
trace has 1 entry but the elapsed-time trace has 2 — the two traces do
not have the same length on the degenerate early-termination path. -/
theorem C2_counterexample :
    runDeg_lens = some (1, 2) ∧ (1 : ℕ) ≠ 2 := by
  refine ⟨?_, by decide⟩
  have hprox : prox_uv uv11 "box" =
      .ok (prox_uv_total UvConstraint.box uv11) := rfl
  have hp0 := compute_obj_ok Xc (zeroZ 1 1 (1 + 1 - 1))
    (prox_uv_total UvConstraint.box uv11).1 (1 / 2) "box" UvConstraint.box rfl
  have hupd : update_z_multi zZero Xc (prox_uv_total UvConstraint.box uv11).1
      (1 / 2 / 100) (zeroZ 1 1 (1 + 1 - 1)) "ista"
      = .ok (zeroZ 1 1 (1 + 1 - 1)) := by
    unfold update_z_multi
    rw [if_pos (show "ista" ∈ valid_solvers_z by simp [valid_solvers_z])]
    rfl
  have hbody : iterBody zZero dC4 Xc (1 / 2) "ista" "box" (1 / 2) none tzq tdq
      0 (LoopState.mk (1 / 2 / 100) (zeroZ 1 1 (1 + 1 - 1))
        (prox_uv_total UvConstraint.box uv11).1
        [compute_obj_total UvConstraint.box Xc (zeroZ 1 1 (1 + 1 - 1))
          (prox_uv_total UvConstraint.box uv11).1 (1 / 2)]
        [0] 0 0 false []
        [(zeroZ 1 1 (1 + 1 - 1), (prox_uv_total UvConstraint.box uv11).1)])
      = .ok (StepOut.stop (LoopState.mk (1 / 2 / 100)
        (zeroZ 1 1 (1 + 1 - 1)) (prox_uv_total UvConstraint.box uv11).1
        [compute_obj_total UvConstraint.box Xc (zeroZ 1 1 (1 + 1 - 1))
          (prox_uv_total UvConstraint.box uv11).1 (1 / 2)]
        [0, 7] 1 0 true [1 / 2 / 100]
        [(zeroZ 1 1 (1 + 1 - 1), (prox_uv_total UvConstraint.box uv11).1)]))
      := by
    simp only [iterBody, if_neg (show ¬ ((0 : ℕ) = 1) by decide), hupd,
      exceptOkBind]
    rw [if_pos (show ∀ (a : Fin 1) (i : Fin 1) (ts : Fin (1 + 1 - 1)),
      zeroZ 1 1 (1 + 1 - 1) a i ts = 0 from fun _ _ _ => rfl)]
    rfl
  have hloop : driverLoop zZero dC4 Xc (1 / 2) "ista" "box" (1 / 2) none tzq
      tdq 1 0 (LoopState.mk (1 / 2 / 100) (zeroZ 1 1 (1 + 1 - 1))
        (prox_uv_total UvConstraint.box uv11).1
        [compute_obj_total UvConstraint.box Xc (zeroZ 1 1 (1 + 1 - 1))
          (prox_uv_total UvConstraint.box uv11).1 (1 / 2)]
        [0] 0 0 false []
        [(zeroZ 1 1 (1 + 1 - 1), (prox_uv_total UvConstraint.box uv11).1)])
      = .ok (LoopState.mk (1 / 2 / 100)
        (zeroZ 1 1 (1 + 1 - 1)) (prox_uv_total UvConstraint.box uv11).1
        [compute_obj_total UvConstraint.box Xc (zeroZ 1 1 (1 + 1 - 1))
          (prox_uv_total UvConstraint.box uv11).1 (1 / 2)]
        [0, 7] 1 0 true [1 / 2 / 100]
        [(zeroZ 1 1 (1 + 1 - 1), (prox_uv_total UvConstraint.box uv11).1)])
      := by
    simp only [driverLoop, hbody, exceptOkBind]
  have hrun : runDeg = .ok (DriverResult.mk
      [compute_obj_total UvConstraint.box Xc (zeroZ 1 1 (1 + 1 - 1))
        (prox_uv_total UvConstraint.box uv11).1 (1 / 2)]
      [0, 7]
      (prox_uv_total UvConstraint.box uv11).1
      (lsqId Xc (prox_uv_total UvConstraint.box uv11).1
        (zeroZ 1 1 (1 + 1 - 1)))
      1 0 true [1 / 2 / 100]
      [(zeroZ 1 1 (1 + 1 - 1), (prox_uv_total UvConstraint.box uv11).1)])
      := by
    simp only [runDeg, learn_d_z_multi, hprox, exceptOkBind, hp0]
    rw [hloop]
    rfl
  rw [runDeg_lens, hrun]
  rfl

set_option maxHeartbeats 1600000 in
set_option maxRecDepth 8000 in
/-- C3 counterexample: the run `runNeg` with regularization weight `-1`
does not fail: it returns normally, with a full iteration executed
(`nZ = 1`) and a three-entry trace. -/
theorem C3_counterexample :
    runNeg_view = some (3, 1) := by
  have hprox : prox_uv uv11 "box" =
      .ok (prox_uv_total UvConstraint.box uv11) := rfl
  have hp0 := compute_obj_ok Xc (zeroZ 1 1 (1 + 1 - 1))
    (prox_uv_total UvConstraint.box uv11).1 (-1) "box" UvConstraint.box rfl
  have hupd : update_z_multi zOne Xc (prox_uv_total UvConstraint.box uv11).1
      (-1 / 100) (zeroZ 1 1 (1 + 1 - 1)) "ista" = .ok oneZ := by
    unfold update_z_multi
    rw [if_pos (show "ista" ∈ valid_solvers_z by simp [valid_solvers_z])]
    rfl
  have hz : ¬ ∀ (a : Fin 1) (i : Fin 1) (ts : Fin (1 + 1 - 1)),
      oneZ a i ts = 0 :=
    fun h => one_ne_zero (h 0 0 0)
  have hob1 := compute_obj_ok Xc oneZ
    (prox_uv_total UvConstraint.box uv11).1 (-1) "box" UvConstraint.box rfl
  have hrun : runNeg = .ok (DriverResult.mk
      [compute_obj_total UvConstraint.box Xc (zeroZ 1 1 (1 + 1 - 1))
        (prox_uv_total UvConstraint.box uv11).1 (-1),
       compute_obj_total UvConstraint.box Xc oneZ
        (prox_uv_total UvConstraint.box uv11).1 (-1),
       compute_obj_total UvConstraint.box Xc oneZ
        (prox_uv_total UvConstraint.box uv11).1 (-1)]
      [0, 7, 9]
      (prox_uv_total UvConstraint.box uv11).1
      (lsqId Xc (prox_uv_total UvConstraint.box uv11).1 oneZ)
      1 1 false [-1 / 100]
      [(zeroZ 1 1 (1 + 1 - 1), (prox_uv_total UvConstraint.box uv11).1),
       (oneZ, (prox_uv_total UvConstraint.box uv11).1),
       (oneZ, (prox_uv_total UvConstraint.box uv11).1)]) := by
    simp only [runNeg, learn_d_z_multi, hprox, exceptOkBind, hp0, driverLoop,
      iterBody, if_neg (show ¬ ((0 : ℕ) = 1) by decide), hupd]
    rw [if_neg hz]
    simp only [dId, hob1, exceptOkBind]
    rw [sub_self]
    rw [if_pos (show (0 : ℚ) < 1 / 2 by norm_num)]
    rfl
  rw [runNeg_view, hrun]
  rfl

/-- `C1_trace_entries_feasible_full_reg` at a concrete configuration. -/
theorem C1_witness :
    ∃ r, learn_d_z_multi zOne dC1 lsqId Xc 1 1 "ista" "box" (1 / 1000) uv11
        none tzq tdq = .ok r ∧
      r.states.length = r.pobj.length ∧
      ∀ j : ℕ, ∀ p : Tensor3 1 1 (1 + 1 - 1) × Mat 1 (1 + 1),
        r.states[j]? = some p →
        r.pobj[j]? = (compute_X_and_objective_multi Xc p.1 p.2 1 true
          "box").toOption :=
  C1_trace_entries_feasible_full_reg zOne dC1 lsqId Xc 1 1 "ista" "box"
    (1 / 1000) uv11 none tzq tdq UvConstraint.box rfl
    (by simp [valid_solvers_z])

/-- `C2_trace_lengths` at a concrete configuration. -/
theorem C2_witness :
    ∃ r, learn_d_z_multi zZero dC4 lsqId Xc (1 / 2) 1 "ista" "box" (1 / 2)
        uv11 none tzq tdq = .ok r ∧
      r.pobj.length = 1 + 2 * r.nD ∧
      r.times.length = 1 + r.nZ + r.nD ∧
      r.times.head? = some 0 ∧
      (r.warned = false → r.times.length = r.pobj.length) ∧
      (r.warned = true → r.times.length = r.pobj.length + 1) :=
  C2_trace_lengths zZero dC4 lsqId Xc (1 / 2) 1 "ista" "box" (1 / 2) uv11
    none tzq tdq UvConstraint.box rfl (by simp [valid_solvers_z])

/-- `C3_config_validation` at concrete configurations: unknown mode
fails, negative weight runs, unknown solver runs with budget 0 and
fails with budget 1. -/
theorem C3_witness :
    (∃ e, learn_d_z_multi zOne dC4 lsqId Xc 1 1 "ista" "tube" (1 / 2) uv11
      none tzq tdq = .error e) ∧
    (∃ r, learn_d_z_multi zOne dC4 lsqId Xc (-1) 1 "ista" "box" (1 / 2) uv11
      none tzq tdq = .ok r) ∧
    (∃ r, learn_d_z_multi zOne dC4 lsqId Xc 1 0 "adam" "box" (1 / 2) uv11
      none tzq tdq = .ok r) ∧
    (∃ e, learn_d_z_multi zOne dC4 lsqId Xc 1 1 "adam" "box" (1 / 2) uv11
      none tzq tdq = .error e) :=
  ⟨(C3_config_validation zOne dC4 lsqId Xc (1 / 2) uv11 none tzq tdq).1
      1 1 "ista" "tube" (fun m h => by
        rw [show parse_uv_constraint "tube" =
          .error "unknown uv_constraint" from rfl] at h
        exact Except.noConfusion h),
   (C3_config_validation zOne dC4 lsqId Xc (1 / 2) uv11 none tzq tdq).2.1
      (-1) (by norm_num) 1 "ista" "box" UvConstraint.box rfl
      (by simp [valid_solvers_z]),
   (C3_config_validation zOne dC4 lsqId Xc (1 / 2) uv11 none tzq tdq).2.2.1
      1 "adam" "box" UvConstraint.box rfl,
   (C3_config_validation zOne dC4 lsqId Xc (1 / 2) uv11 none tzq tdq).2.2.2
      1 1 (by norm_num) "adam" "box" UvConstraint.box rfl
      (by simp [valid_solvers_z])⟩

/-- `C4_stop_when_strictly_below` at a concrete state whose
post-dictionary objective 1 is strictly below the floor 2. -/
theorem C4_witness :
    ∃ s1, iterBody zOne dC4 Xc (1 / 2) "ista" "box" (1 / 2) (some 2) tzq tdq
      0 sInit = .ok (StepOut.stop s1) :=
  C4_stop_when_strictly_below zOne dC4 Xc (1 / 2) "ista" "box" (1 / 2) 2
    tzq tdq 0 sInit UvConstraint.box rfl (by simp [valid_solvers_z]) oneZ rfl
    uv11 rfl (fun h => one_ne_zero (h 0 0 0))
    (by rw [obj_oneZ_uv11_half]; norm_num)

/-- `C5_warmup_schedule` at a concrete configuration. -/
theorem C5_witness :
    ∃ r, learn_d_z_multi zOne dC4 lsqId Xc (1 / 2) 2 "ista" "box" (1 / 2)
        uvC4 (some 1) tzq tdq = .ok r ∧
      ∀ i : ℕ, ∀ ρ : ℚ, r.regLog[i]? = some ρ →
        ρ = if i = 0 then 1 / 2 / 100 else 1 / 2 :=
  C5_warmup_schedule zOne dC4 lsqId Xc (1 / 2) 2 "ista" "box" (1 / 2) uvC4
    (some 1) tzq tdq UvConstraint.box rfl (by simp [valid_solvers_z])

/-- `C6_degenerate_warn_and_stop` at a concrete state with an all-zero
sparse-code result. -/
theorem C6_witness :
    ∃ s1, iterBody zZero dC4 Xc (1 / 2) "ista" "box" (1 / 2) none tzq tdq 0
        sInit = .ok (StepOut.stop s1) ∧
      s1.warned = true ∧ s1.pobj = sInit.pobj ∧ s1.states = sInit.states ∧
      s1.nD = sInit.nD ∧ s1.nZ = sInit.nZ + 1 ∧ s1.uv = sInit.uv ∧
      s1.times = sInit.times ++ [tzq 0] ∧
      driverLoop zZero dC4 Xc (1 / 2) "ista" "box" (1 / 2) none tzq tdq
        (0 + 1) 0 sInit = .ok s1 :=
  C6_degenerate_warn_and_stop zZero dC4 Xc (1 / 2) "ista" "box" (1 / 2) none
    tzq tdq 0 0 sInit (by simp [valid_solvers_z]) (zeroZ 1 1 (1 + 1 - 1))
    rfl (fun _ _ _ => rfl)

/-- `C7_convergence_last_two_entries` at a concrete state. -/
theorem C7_witness :
    ((∃ s1, iterBody zOne dId Xc (1 / 2) "ista" "box" (1 / 2) none tzq tdq 0
        sInit = .ok (StepOut.stop s1)) ↔
      compute_obj_total UvConstraint.box Xc oneZ sInit.uv (1 / 2) -
        compute_obj_total UvConstraint.box Xc oneZ uv11 (1 / 2) < 1 / 2) ∧
    ∀ out, iterBody zOne dId Xc (1 / 2) "ista" "box" (1 / 2) none tzq tdq 0
        sInit = .ok out →
      out.state.pobj = sInit.pobj ++
        [compute_obj_total UvConstraint.box Xc oneZ sInit.uv (1 / 2),
         compute_obj_total UvConstraint.box Xc oneZ uv11 (1 / 2)] :=
  C7_convergence_last_two_entries zOne dId Xc (1 / 2) "ista" "box" (1 / 2)
    tzq tdq 0 sInit UvConstraint.box rfl (by simp [valid_solvers_z]) oneZ rfl
    uv11 rfl (fun h => one_ne_zero (h 0 0 0))

/-- `C9_zero_budget` at a concrete configuration. -/
theorem C9_witness :
    ∃ r, learn_d_z_multi zOne dC4 lsqId Xc (1 / 2) 0 "ista" "box" (1 / 2)
        uv11 none tzq tdq = .ok r ∧
      r.pobj.length = 1 ∧
      r.uv = (prox_uv_total UvConstraint.box uv11).1 ∧
      r.Z = lsqId Xc (prox_uv_total UvConstraint.box uv11).1
        (zeroZ 1 1 (1 + 1 - 1)) :=
  C9_zero_budget zOne dC4 lsqId Xc (1 / 2) "ista" "box" (1 / 2) uv11 none
    tzq tdq UvConstraint.box rfl

/-- `C10_initial_objective` at a concrete configuration. -/
theorem C10_witness :
    ∃ r, learn_d_z_multi zOne dC4 lsqId Xc (1 / 2) 1 "ista" "box" (1 / 2)
        uv11 none tzq tdq = .ok r ∧
      r.pobj.head? = some ((1 / 2) *
        ∑ i : Fin 1, ∑ ch : Fin 1, ∑ tt : Fin 1, (Xc i ch tt) ^ 2) :=
  C10_initial_objective zOne dC4 lsqId Xc (1 / 2) 1 "ista" "box" (1 / 2)
    uv11 none tzq tdq UvConstraint.box rfl (by simp [valid_solvers_z])
